import Mathlib

/-!
Verification development for the per-user PDF RAG command-line tool
(`src/main.py`).  The program's own logic (path/key construction, the
lexicographic range filter, error-to-neutral-value policy, the interactive
driver) is embedded as pure Lean functions; each external managed service
(blob store, search backend, chat completion) is represented by an explicit
parameter carrying its observable behaviour, since those services are not
part of this repository.
-/

/-- Lexicographic (code-point) strict comparison on character lists: the
ordering the search backend applies to `metadata_storage_path` when it
evaluates the `ge`/`lt` operators of the filter (spec §4.2 states the filter
is a half-open lexicographic range). -/
def lexLt : List Char → List Char → Bool
  | [], [] => false
  | [], _ :: _ => true
  | _ :: _, [] => false
  | a :: as, b :: bs => a < b || (a == b && lexLt as bs)

/-- `s ≥ t` in the lexicographic order: the `ge` operator of the filter. -/
def lexGe (s t : List Char) : Bool := !(lexLt s t)

/-- The user folder prefix `f"{STORAGE_ACCOUNT_URL}/{CONTAINER_NAME}/{username}/"`
built at `main.py:102`. -/
def user_folder_url_prefix (url container username : String) : String :=
  url ++ "/" ++ container ++ "/" ++ username ++ "/"

/-- The upper bound `user_folder_url_prefix + "~"` built at `main.py:103`. -/
def upper_bound (url container username : String) : String :=
  user_folder_url_prefix url container username ++ "~"

/-- The OData filter string built at `main.py:105`-`108`:
`metadata_storage_path ge '<prefix>' and metadata_storage_path lt '<upper>'`. -/
def filter_expression (url container username : String) : String :=
  "metadata_storage_path ge \x27" ++ user_folder_url_prefix url container username ++
    "\x27 and metadata_storage_path lt \x27" ++ upper_bound url container username ++ "\x27"

/-- Whether a path `s` satisfies the range filter with lower bound `P` and
upper bound `U`: `s ge P and s lt U` under lexicographic comparison. -/
def filterMatch (P U s : List Char) : Bool := lexGe s P && lexLt s U

theorem lexLt_append_left (P t u : List Char) : lexLt (P ++ t) (P ++ u) = lexLt t u := by
  induction P with
  | nil => rfl
  | cons a P ih => simp [lexLt, ih]

theorem lexLt_append_self (P t : List Char) : lexLt (P ++ t) P = false := by
  induction P with
  | nil => cases t <;> rfl
  | cons a P ih => simp [lexLt, ih]

theorem lexLt_upper_of_not_prefixOf (P : List Char) :
    ∀ s : List Char, P.isPrefixOf s = false → lexLt s P = false →
      lexLt s (P ++ ['~']) = false := by
  induction P with
  | nil => intro s hpre _; simp [List.isPrefixOf] at hpre
  | cons p P ih =>
    intro s hpre hge
    cases s with
    | nil => simp [lexLt] at hge
    | cons a as =>
      by_cases hap : a = p
      · subst hap
        simp [List.isPrefixOf] at hpre
        simp [lexLt] at hge ⊢
        exact ih as hpre hge
      · simp [lexLt, hap] at hge ⊢
        exact hge

/-- Core partition property of the half-open range `[P, P ++ "~")`: a path
matches exactly when it extends `P` by a remainder lexicographically below
`"~"`. -/
theorem filterMatch_iff (P s : List Char) :
    filterMatch P (P ++ ['~']) s = true ↔
      (P.isPrefixOf s = true ∧ lexLt (List.drop P.length s) ['~'] = true) := by
  constructor
  · intro h
    have hge : lexLt s P = false := by
      have := (Bool.and_eq_true _ _).mp h |>.1
      simpa [lexGe] using this
    have hlt : lexLt s (P ++ ['~']) = true := (Bool.and_eq_true _ _).mp h |>.2
    have hpre : P.isPrefixOf s = true := by
      by_contra hc
      have hfalse : P.isPrefixOf s = false := by
        cases hval : P.isPrefixOf s with
        | false => rfl
        | true => exact absurd hval hc
      have := lexLt_upper_of_not_prefixOf P s hfalse hge
      rw [this] at hlt
      cases hlt
    refine ⟨hpre, ?_⟩
    obtain ⟨t, rfl⟩ := List.isPrefixOf_iff_prefix.mp hpre
    rw [List.drop_left]
    rwa [lexLt_append_left] at hlt
  · rintro ⟨hpre, hlt⟩
    obtain ⟨t, rfl⟩ := List.isPrefixOf_iff_prefix.mp hpre
    rw [List.drop_left] at hlt
    simp [filterMatch, lexGe, lexLt_append_self, lexLt_append_left, hlt]

/-- C1 (counterexample): the claim as stated is false.  With url
`https://acct`, container `docs`, username `alice`, the path that is the user
prefix followed by `~` starts with the prefix, yet it fails the `lt` bound,
so the filter rejects a path that belongs to the user's folder. -/
theorem C1_counterexample_tilde_path :
    (( user_folder_url_prefix "https://acct" "docs" "alice").data.isPrefixOf
        (( user_folder_url_prefix "https://acct" "docs" "alice").data ++ ['~']) = true) ∧
      filterMatch ( user_folder_url_prefix "https://acct" "docs" "alice").data
        (upper_bound "https://acct" "docs" "alice").data
        (( user_folder_url_prefix "https://acct" "docs" "alice").data ++ ['~']) = false := by
  decide

/-- C1 (amended): the range filter built by `search_documents` matches a path
`s` exactly when `s` starts with the user folder prefix AND the remainder
after the prefix is lexicographically below `"~"` (empty, or starting with a
character before `~`).  In particular every path that does not start with the
prefix fails at least one bound, and every path that starts with the prefix
and whose remainder stays below `"~"` satisfies both bounds. -/
theorem C1_amended_filter_partitions (url container username : String) (s : List Char) :
    filterMatch ( user_folder_url_prefix url container username).data
        (upper_bound url container username).data s = true ↔
      (( user_folder_url_prefix url container username).data.isPrefixOf s = true ∧
        lexLt (List.drop ( user_folder_url_prefix url container username).data.length s)
          ['~'] = true) := by
  have h : (upper_bound url container username).data =
      ( user_folder_url_prefix url container username).data ++ ['~'] := by
    simp [upper_bound, String.data_append]
  rw [h]
  exact filterMatch_iff _ s

/-- C2: `search_documents` builds the filter string as the half-open
lexicographic range `metadata_storage_path ge '<P>' and
metadata_storage_path lt '<P>~'` where `P = url/container/username/`, the
upper bound is `P` with a single `~` appended, and the username is
interpolated verbatim, with no escaping or encoding. -/
theorem C2_filter_expression_shape (url container username : String) :
    filter_expression url container username =
      "metadata_storage_path ge \x27" ++
        (url ++ "/" ++ container ++ "/" ++ username ++ "/") ++
        "\x27 and metadata_storage_path lt \x27" ++
        (url ++ "/" ++ container ++ "/" ++ username ++ "/" ++ "~") ++ "\x27" ∧
      upper_bound url container username =
        user_folder_url_prefix url container username ++ "~" := by
  constructor
  · simp [filter_expression, upper_bound, user_folder_url_prefix, String.append_assoc]
  · rfl

/-- Python `os.path.basename` (POSIX): the part of the path after the last
`/` (`main.py:61`). -/
def basename (p : String) : String :=
  ⟨p.data.foldl (fun acc c => if c = '/' then [] else acc ++ [c]) []⟩

/-- The blob object key `f"{username}/{filename}"` built at `main.py:64`. -/
def blob_name (username local_file_path : String) : String :=
  username ++ "/" ++ basename local_file_path

/-- The observable state of the blob container: a list of (key, bytes)
objects, in write order. -/
abbrev Store := List (String × List Nat)

/-- `upload_blob(data, overwrite=True)` semantics (`main.py:71`): any object
already at the key is replaced by the new content. -/
def putBlob (st : Store) (k : String) (v : List Nat) : Store :=
  st.filter (fun e => !(e.1 == k)) ++ [(k, v)]

/-- Read back the object at key `k` (latest write wins). -/
def getBlob (st : Store) (k : String) : Option (List Nat) :=
  ((st.filter (fun e => e.1 == k)).map Prod.snd).getLast?

/-- Number of objects the store holds at key `k`. -/
def countKey (st : Store) (k : String) : Nat :=
  (st.filter (fun e => e.1 == k)).length

/-- `upload_file` (`main.py:45`-`82`): the whole body runs inside one
`try/except Exception`.  `outcome` is the combined result of the external
steps (credential acquisition, client construction, reading the local file,
the network write): `.ok data` when they all succeed with file content
`data`, `.error` when any of them raises.  On success the blob is written
with overwrite semantics and the function returns `True`; on any exception a
diagnostic is printed and it returns `False`. -/
def upload_file (username local_file_path : String)
    (outcome : Except String (List Nat)) (st : Store) : Bool × Store :=
  match outcome with
  | .error _ => (false, st)
  | .ok data => (true, putBlob st (blob_name username local_file_path) data)

theorem filter_putBlob_self (st : Store) (k : String) (v : List Nat) :
    (putBlob st k v).filter (fun e => e.1 == k) = [(k, v)] := by
  simp [putBlob, List.filter_append, List.filter_filter]

theorem getBlob_putBlob (st : Store) (k : String) (v : List Nat) :
    getBlob (putBlob st k v) k = some v := by
  simp [getBlob, filter_putBlob_self]

theorem countKey_putBlob (st : Store) (k : String) (v : List Nat) :
    countKey (putBlob st k v) k = 1 := by
  simp [countKey, filter_putBlob_self]

/-- C3: a successful `upload_file` stores the file content under the object
key that is exactly `username`, a literal `/`, and the basename of the local
path — no escaping of any character of `username` — and the write overwrites
whatever the store previously held at that key. -/
theorem C3_upload_key (username p : String) (data : List Nat) (st : Store) :
    blob_name username p = username ++ "/" ++ basename p ∧
      (upload_file username p (.ok data) st).2 =
        putBlob st (username ++ "/" ++ basename p) data ∧
      getBlob (upload_file username p (.ok data) st).2
        (username ++ "/" ++ basename p) = some data := by
  refine ⟨rfl, rfl, ?_⟩
  exact getBlob_putBlob st (username ++ "/" ++ basename p) data

/-- Whether the external operation chain of an upload succeeded. -/
def opSucceeds (outcome : Except String (List Nat)) : Bool :=
  match outcome with
  | .ok _ => true
  | .error _ => false

/-- C8: `upload_file` always returns a boolean — `True` exactly when the
operation chain succeeds, `False` on any failure (missing file, auth,
permission, network), never an exception — and on failure the store is left
unchanged. -/
theorem C8_upload_returns_bool (username p : String)
    (outcome : Except String (List Nat)) (st : Store) :
    (upload_file username p outcome st).1 = opSucceeds outcome ∧
      (∀ e, outcome = .error e → upload_file username p outcome st = (false, st)) := by
  cases outcome <;> simp [upload_file, opSucceeds]

/-- Witness for C8 at a concrete failing input. -/
theorem C8_upload_returns_bool_witness :
    upload_file "alice" "/tmp/notes.pdf" (Except.error "auth failed") [] = (false, []) :=
  (C8_upload_returns_bool "alice" "/tmp/notes.pdf" (Except.error "auth failed") []).2
    "auth failed" rfl

/-- C9: uploading the same file twice to the same key is idempotent under
overwrite-on-conflict: afterwards the store holds exactly one object at that
key, and its content is the bytes of the latest upload. -/
theorem C9_idempotent_overwrite (username p : String) (d1 d2 : List Nat) (st : Store) :
    countKey (upload_file username p (.ok d2)
        (upload_file username p (.ok d1) st).2).2 (blob_name username p) = 1 ∧
      getBlob (upload_file username p (.ok d2)
        (upload_file username p (.ok d1) st).2).2 (blob_name username p) = some d2 := by
  constructor
  · exact countKey_putBlob _ _ d2
  · exact getBlob_putBlob _ _ d2

/-- A record returned by the search backend, exposing the two fields the
program selects (`main.py:113`); either may be absent (`result.get`). -/
structure RawResult where
  content : Option String
  metadata_storage_path : Option String

/-- The record `search_documents` builds for each result (`main.py:119`). -/
structure DocRecord where
  content : Option String
  source : Option String

/-- `search_documents` (`main.py:89`-`129`): the whole body runs inside one
`try/except Exception`.  `backend` models the search service: applied to the
search text, the filter string and the `top` cap, it yields the result list
the iteration at `main.py:118` consumes, or an error when any step (client
construction, the query, the iteration itself) raises.  On success each
result is mapped to a record holding its `content` and its
`metadata_storage_path` as `source`; on any exception the function prints a
diagnostic and returns the empty list. -/
def search_documents (url container username query : String) (top_k : Nat)
    (backend : String → String → Nat → Except String (List RawResult)) : List DocRecord :=
  match backend query (filter_expression url container username) top_k with
  | .error _ => []
  | .ok results => results.map (fun r => ⟨r.content, r.metadata_storage_path⟩)

/-- C4: whenever the search backend raises, `search_documents` returns the
empty list and never propagates the exception (it is a total function into
`List DocRecord`). -/
theorem C4_search_error_returns_empty (url container username query : String) (top_k : Nat)
    (backend : String → String → Nat → Except String (List RawResult)) (e : String)
    (h : backend query (filter_expression url container username) top_k = .error e) :
    search_documents url container username query top_k backend = [] := by
  simp [search_documents, h]

/-- Witness for C4 at a concrete failing backend. -/
theorem C4_search_error_returns_empty_witness :
    search_documents "https://acct" "docs" "alice" "refund policy" 3
      (fun _ _ _ => Except.error "connection reset") = [] :=
  C4_search_error_returns_empty "https://acct" "docs" "alice" "refund policy" 3
    (fun _ _ _ => Except.error "connection reset") "connection reset" rfl

/-- C7: on backend success with at most `top_k` results (the cap the code
requests by passing `top=top_k`, default 3), `search_documents` returns
exactly one record per backend result, in backend order, carrying the
result's `content` field and its `metadata_storage_path` field as `source`;
in particular at most `top_k` records. -/
theorem C7_search_results_shape (url container username query : String) (top_k : Nat)
    (backend : String → String → Nat → Except String (List RawResult))
    (results : List RawResult)
    (hok : backend query (filter_expression url container username) top_k = .ok results)
    (hcap : results.length ≤ top_k) :
    search_documents url container username query top_k backend =
      List.map (fun r => (⟨r.content, r.metadata_storage_path⟩ : DocRecord)) results ∧
      (search_documents url container username query top_k backend).length ≤ top_k := by
  constructor
  · simp [search_documents, hok]
  · simpa [search_documents, hok] using hcap

/-- A sample backend result used by concrete witnesses. -/
def sampleResult : RawResult :=
  { content := some "refunds are processed in 5 days"
    metadata_storage_path := some "https://acct/docs/alice/notes.pdf" }

/-- Witness for C7 at a concrete one-result backend. -/
theorem C7_search_results_shape_witness :
    search_documents "https://acct" "docs" "alice" "refunds" 3
        (fun _ _ _ => Except.ok [sampleResult]) =
      List.map (fun r => (⟨r.content, r.metadata_storage_path⟩ : DocRecord)) [sampleResult] ∧
      (search_documents "https://acct" "docs" "alice" "refunds" 3
        (fun _ _ _ => Except.ok [sampleResult])).length ≤ 3 :=
  C7_search_results_shape "https://acct" "docs" "alice" "refunds" 3
    (fun _ _ _ => Except.ok [sampleResult]) [sampleResult] rfl (by decide)

/-- The fixed fallback returned on empty context (`main.py:141`). -/
def fallback_message : String := "No relevant documents found. (Did the Indexer run?)"

/-- The fixed error string returned when generation fails (`main.py:164`). -/
def generation_error_message : String := "Error generating answer."

/-- Python f-string rendering of a possibly-`None` field. -/
def optText : Option String → String
  | none => "None"
  | some s => s

/-- The joined context text built at `main.py:143`. -/
def context_text (docs : List DocRecord) : String :=
  String.intercalate "\n\n"
    (docs.map (fun doc => "Source: " ++ optText doc.source ++
      "\nContent: " ++ optText doc.content))

/-- The content of the user message sent to the model (`main.py:155`). -/
def user_prompt (docs : List DocRecord) (user_question : String) : String :=
  "Context:\n" ++ context_text docs ++ "\n\nQuestion: " ++ user_question

/-- `generate_rag_answer` (`main.py:136`-`164`): the whole body runs inside
one `try/except Exception`.  `chat` models the chat-completions client:
applied to the user-message content it yields the first choice's text, or an
error when the request (or reading the response) raises.  The `Bool` of the
result records whether the network client was invoked at all: the code
returns the fallback before constructing the client when the context is
empty. -/
def generate_rag_answer (user_question : String) (context_docs : List DocRecord)
    (chat : String → Except String String) : String × Bool :=
  if context_docs.isEmpty then (fallback_message, false)
  else
    match chat (user_prompt context_docs user_question) with
    | .ok answer => (answer, true)
    | .error _ => (generation_error_message, true)

/-- C5: with an empty context-document sequence, `generate_rag_answer`
returns the fixed "no relevant documents" message for every question and
every possible chat backend, and the chat client is never invoked (the
invocation flag is `false`). -/
theorem C5_empty_context_fallback (user_question : String)
    (chat : String → Except String String) :
    generate_rag_answer user_question [] chat = (fallback_message, false) := by
  simp [generate_rag_answer]

/-- C6: with a non-empty context, if the chat-completion request raises (any
step of the network call, modelled by the `chat` oracle returning an error),
`generate_rag_answer` returns the fixed error string and never propagates
the exception. -/
theorem C6_request_failure_error_string (user_question : String)
    (context_docs : List DocRecord) (chat : String → Except String String) (e : String)
    (hne : context_docs ≠ [])
    (hfail : chat (user_prompt context_docs user_question) = .error e) :
    generate_rag_answer user_question context_docs chat =
      (generation_error_message, true) := by
  cases context_docs with
  | nil => exact absurd rfl hne
  | cons d ds => simp [generate_rag_answer, hfail]

/-- A sample context record used by concrete witnesses. -/
def sampleDoc : DocRecord :=
  { content := some "refunds are processed in 5 days"
    source := some "https://acct/docs/alice/notes.pdf" }

/-- Witness for C6 at a concrete failing chat backend. -/
theorem C6_request_failure_error_string_witness :
    generate_rag_answer "What is the refund policy?" [sampleDoc]
        (fun _ => Except.error "request timed out") =
      (generation_error_message, true) :=
  C6_request_failure_error_string "What is the refund policy?" [sampleDoc]
    (fun _ => Except.error "request timed out") "request timed out" (by simp) rfl

/-- The whitespace set Python `str.strip()` removes by default. -/
def isPySpace (c : Char) : Bool :=
  c = ' ' || c = '\t' || c = '\n' || c = '\r' || c = '\x0b' || c = '\x0c'

/-- Python `str.strip()`: remove leading and trailing whitespace. -/
def pstrip (s : String) : String :=
  ⟨((s.data.dropWhile isPySpace).reverse.dropWhile isPySpace).reverse⟩

/-- Python `str.lower()` restricted to ASCII case mapping — sufficient for
the keyword comparisons (`yes`/`y`, `exit`/`quit`) the driver performs. -/
def plower (s : String) : String := ⟨s.data.map Char.toLower⟩

/-- The path cleanup at `main.py:185`-`186`: strip, then delete every double
and single quote character. -/
def clean_path (s : String) : String :=
  ⟨(pstrip s).data.filter (fun c => !(c = '\"') && !(c = '\x27'))⟩

/-- Observable actions of the interactive driver `main` (`main.py:171`-`209`);
prints aside, these are the decision points of the control flow. -/
inductive Event where
  | uploadPromptShown
  | uploadAttempt (username path : String)
  | fileNotFound
  | question (username q : String)
  | endOfInput

/-- The question loop (`main.py:194`-`209`): one input consumed per
iteration; `exit`/`quit` (after strip and lower) leaves the loop, a blank
query is skipped, anything else triggers one search-and-generate round.
Exhausting the input script models end-of-input on `input()`. -/
def question_loop (username : String) : List String → List Event
  | [] => [Event.endOfInput]
  | q :: rest =>
    let uq := pstrip q
    if plower uq = "exit" || plower uq = "quit" then []
    else if uq = "" then question_loop username rest
    else Event.question username uq :: question_loop username rest

/-- The driver `main` (`main.py:171`-`209`) as a function of the stdin
script: read the username (stripped), return at once when it is empty;
otherwise offer the upload prompt, on `yes`/`y` read a path, clean it and
either attempt the upload (when the file exists, per the `fsExists` oracle)
or report file-not-found; then run the question loop. -/
def mainEvents (fsExists : String → Bool) : List String → List Event
  | [] => [Event.endOfInput]
  | u :: rest =>
    let current_username := pstrip u
    if current_username = "" then []
    else
      Event.uploadPromptShown ::
        match rest with
        | [] => [Event.endOfInput]
        | choice :: rest2 =>
          let upload_choice := pstrip (plower choice)
          if upload_choice = "yes" || upload_choice = "y" then
            match rest2 with
            | [] => [Event.endOfInput]
            | pathIn :: rest3 =>
              (if fsExists (clean_path pathIn)
               then [Event.uploadAttempt current_username (clean_path pathIn)]
               else [Event.fileNotFound]) ++ question_loop current_username rest3
          else question_loop current_username rest2

/-- C10: when the username entered at startup strips to the empty string,
`main` returns immediately — the event trace is empty: no upload prompt, no
upload, no question loop. -/
theorem C10_empty_username_returns (fsExists : String → Bool) (u : String)
    (rest : List String) (h : pstrip u = "") :
    mainEvents fsExists (u :: rest) = [] := by
  simp [mainEvents, h]

/-- Witness for C10 at a concrete whitespace-only username. -/
theorem C10_empty_username_returns_witness :
    mainEvents (fun _ => false) ("   " :: ["yes", "what is the policy?"]) = [] :=
  C10_empty_username_returns (fun _ => false) "   " ["yes", "what is the policy?"] rfl
